import Mathlib

/-!
Shallow embedding of `src/services/api/employeeService.js`: the `EmployeeService`
data-access wrapper (getAll / getById / create / update / delete) and the
`EmployeeModal` form component (validateForm / handleSubmit / handleClose).

Modelling conventions:
* JS string-valued object properties are modelled as `String`, with `""` standing
  for both the empty string and an absent (`undefined`) property.  This collapse
  is sound for this code: every use of such a property is either `x || y`
  (where `undefined` and `""` are equally falsy), `` `${x || ''}` ``, or
  `fullName?.split(' ')`, and `undefined?.split(' ')[0]` (namely `undefined`)
  and `''.split(' ')[0]` (namely `''`) are equally falsy in the `|| ''` chains
  where they occur.
* The department id properties may be a string or a number in JS, so they are
  modelled by `JSV` (undefined / string / integer number) with JS truthiness.
* `parseInt` is modelled by `jsParseInt`, returning `Option Int` where `none`
  models the JS `NaN` result.
* Each SDK call's outcome is a value of `SDKResult ρ`: either `thrown` (the
  awaited promise rejected, landing in the `catch` block) or `ok r` (a response
  envelope `r`).  Each wrapper operation is a total Lean function of this
  outcome returning `(result, toasts)` where `toasts` is the list of
  `toast.error` messages it emits; totality models the fact that the wrapper
  never propagates an exception to its caller.
-/

/-- JS `a || b` for string-valued operands (`""`/`undefined` are falsy). -/
def jsOr (a b : String) : String := if a = "" then b else a

/-- JS `String.prototype.trim()`: strip leading and trailing whitespace. -/
def jsTrim (s : String) : String :=
  ⟨((s.data.dropWhile Char.isWhitespace).reverse.dropWhile Char.isWhitespace).reverse⟩

/-- A JS value that is either `undefined`, a string, or an (integer) number:
the shapes that reach the `department_id_c` / `departmentId` properties. -/
inductive JSV where
  | undef : JSV
  | str : String → JSV
  | num : Int → JSV
deriving DecidableEq

/-- JS truthiness of a `JSV` (`undefined`, `""` and `0` are falsy). -/
def JSV.truthy : JSV → Bool
  | .undef => false
  | .str s => s != ""
  | .num n => n != 0

/-- JS `a || b` on `JSV` operands. -/
def jsOrV (a b : JSV) : JSV := if a.truthy then a else b

/-- JS `String(v)` coercion, as applied by `parseInt` to its argument. -/
def jsvToString : JSV → String
  | .undef => "undefined"
  | .str s => s
  | .num n => toString n

/-- Numeric value of a list of decimal digit characters. -/
def digitsVal (l : List Char) : Nat :=
  l.foldl (fun a c => a * 10 + (c.toNat - '0'.toNat)) 0

/-- A hexadecimal digit character: `[0-9a-fA-F]`. -/
def isHexDig (c : Char) : Bool :=
  c.isDigit || ('a' ≤ c && c ≤ 'f') || ('A' ≤ c && c ≤ 'F')

/-- Numeric value of one hexadecimal digit character. -/
def hexDigitVal (c : Char) : Nat :=
  if c.isDigit then c.toNat - '0'.toNat
  else if 'a' ≤ c ∧ c ≤ 'f' then c.toNat - 'a'.toNat + 10
  else c.toNat - 'A'.toNat + 10

/-- Numeric value of a list of hexadecimal digit characters. -/
def hexVal (l : List Char) : Nat :=
  l.foldl (fun a c => a * 16 + hexDigitVal c) 0

/-- The unsigned part of JS radix-less `parseInt` (ECMA-262): a `0x`/`0X`
prefix selects radix 16 and is stripped, otherwise radix is 10; then the
maximal run of leading digits in that radix is parsed, `none` (the `NaN`
result) when that run is empty. -/
def parseUnsigned (l : List Char) : Option Nat :=
  match l with
  | '0' :: 'x' :: r =>
    match r.takeWhile isHexDig with
    | [] => none
    | ds => some (hexVal ds)
  | '0' :: 'X' :: r =>
    match r.takeWhile isHexDig with
    | [] => none
    | ds => some (hexVal ds)
  | _ =>
    match l.takeWhile Char.isDigit with
    | [] => none
    | ds => some (digitsVal ds)

/-- JS radix-less `parseInt` on a string (as called in the source, with no
radix argument): skip leading whitespace, read an optional sign, then the
unsigned hex-or-decimal part; `none` models the `NaN` result. -/
def parseIntStr (s : String) : Option Int :=
  match s.data.dropWhile Char.isWhitespace with
  | '-' :: r => (parseUnsigned r).map (fun n => -(n : Int))
  | '+' :: r => (parseUnsigned r).map (fun n => (n : Int))
  | l => (parseUnsigned l).map (fun n => (n : Int))

/-- JS `parseInt(v)` on a `JSV` argument. -/
def jsParseInt (v : JSV) : Option Int := parseIntStr (jsvToString v)

/-- JS `String.prototype.split(' ')` on the character list: split at every
single space, keeping empty segments (so the result is always non-empty). -/
def splitSp : List Char → List (List Char)
  | [] => [[]]
  | c :: cs =>
    match splitSp cs with
    | [] => [[c]]
    | h :: t => if c = ' ' then [] :: h :: t else (c :: h) :: t

/-- JS `s.split(' ')` at the `String` level. -/
def jsSplitSpace (s : String) : List String :=
  (splitSp s.data).map (fun l => (⟨l⟩ : String))

/-- JS `Array.prototype.join(' ')` on character-list segments. -/
def joinC : List (List Char) → List Char
  | [] => []
  | [x] => x
  | x :: y :: t => x ++ ' ' :: joinC (y :: t)

/-- JS `Array.prototype.join(' ')` on strings. -/
def joinSp : List String → String
  | [] => ""
  | [x] => x
  | x :: y :: t => x ++ " " ++ joinSp (y :: t)

/-- The employee record sent to / returned by the store (`employee_c` fields).
`department_id_c : Option Int` carries the `parseInt` result, `none` = `NaN`. -/
structure EmployeeRecord where
  Name : String := ""
  first_name_c : String := ""
  last_name_c : String := ""
  email_c : String := ""
  phone_c : String := ""
  role_c : String := ""
  department_id_c : Option Int := some 0
  hire_date_c : String := ""
  status_c : String := "active"
  avatar_c : String := ""
deriving DecidableEq

/-- The `employeeData` argument of `create` / `update`: a JS object that may
carry store-style (`*_c`) and/or UI-style property names. -/
structure EmployeeData where
  fullName : String := ""
  first_name_c : String := ""
  last_name_c : String := ""
  email_c : String := ""
  email : String := ""
  phone_c : String := ""
  phone : String := ""
  role_c : String := ""
  role : String := ""
  department_id_c : JSV := .undef
  departmentId : JSV := .undef
  hire_date_c : String := ""
  hireDate : String := ""
  status_c : String := ""
  status : String := ""
  avatar_c : String := ""
  avatar : String := ""
deriving DecidableEq

/-- The record object built in `create` (employeeService.js lines 98-111):
the single element of `params.records`. -/
def createRecordPayload (e : EmployeeData) : EmployeeRecord :=
  { Name := jsOr e.fullName (jsTrim (jsOr e.first_name_c "" ++ " " ++ jsOr e.last_name_c ""))
  , first_name_c := jsOr (jsOr e.first_name_c ((jsSplitSpace e.fullName).headD "")) ""
  , last_name_c := jsOr (jsOr e.last_name_c (joinSp (jsSplitSpace e.fullName).tail)) ""
  , email_c := jsOr (jsOr e.email_c e.email) ""
  , phone_c := jsOr (jsOr e.phone_c e.phone) ""
  , role_c := jsOr (jsOr e.role_c e.role) ""
  , department_id_c := jsParseInt (jsOrV (jsOrV e.department_id_c e.departmentId) (JSV.num 0))
  , hire_date_c := jsOr (jsOr e.hire_date_c e.hireDate) ""
  , status_c := jsOr (jsOr e.status_c e.status) "active"
  , avatar_c := jsOr (jsOr e.avatar_c e.avatar) "" }

/-- The record object built in `update` (employeeService.js lines 154-168):
as in `create` but with the `Id` field. -/
structure UpdateRecord where
  Id : Int
  Name : String := ""
  first_name_c : String := ""
  last_name_c : String := ""
  email_c : String := ""
  phone_c : String := ""
  role_c : String := ""
  department_id_c : Option Int := some 0
  hire_date_c : String := ""
  status_c : String := "active"
  avatar_c : String := ""
deriving DecidableEq

/-- The single element of `params.records` built in `update`. -/
def updateRecordPayload (id : Int) (e : EmployeeData) : UpdateRecord :=
  { Id := id
  , Name := jsOr e.fullName (jsTrim (jsOr e.first_name_c "" ++ " " ++ jsOr e.last_name_c ""))
  , first_name_c := jsOr (jsOr e.first_name_c ((jsSplitSpace e.fullName).headD "")) ""
  , last_name_c := jsOr (jsOr e.last_name_c (joinSp (jsSplitSpace e.fullName).tail)) ""
  , email_c := jsOr (jsOr e.email_c e.email) ""
  , phone_c := jsOr (jsOr e.phone_c e.phone) ""
  , role_c := jsOr (jsOr e.role_c e.role) ""
  , department_id_c := jsParseInt (jsOrV (jsOrV e.department_id_c e.departmentId) (JSV.num 0))
  , hire_date_c := jsOr (jsOr e.hire_date_c e.hireDate) ""
  , status_c := jsOr (jsOr e.status_c e.status) "active"
  , avatar_c := jsOr (jsOr e.avatar_c e.avatar) "" }

/-- Outcome of an awaited SDK call: the promise rejected (`thrown`, landing in
the wrapper's `catch` block) or resolved with response envelope `r`. -/
inductive SDKResult (ρ : Type) where
  | thrown : SDKResult ρ
  | ok : ρ → SDKResult ρ

/-- Response envelope of `fetchRecords`. -/
structure FetchResponse where
  success : Bool
  message : String := ""
  data : Option (List EmployeeRecord) := none

/-- Response envelope of `getRecordById` (its `success` flag is never read by
`getById`, but it is part of the store's contract). -/
structure GetResponse where
  success : Bool
  data : Option EmployeeRecord := none

/-- A per-field error entry inside a per-record result. -/
structure RecError where
  fieldLabel : String
  message : String
deriving DecidableEq

/-- A per-record entry of the `results` array of a mutation response. -/
structure RecResult where
  success : Bool
  data : Option EmployeeRecord := none
  message : Option String := none
  errors : List RecError := []
deriving DecidableEq

/-- Response envelope of `createRecord` / `updateRecord` / `deleteRecord`. -/
structure MutResponse where
  success : Bool
  message : String := ""
  results : Option (List RecResult) := none

namespace EmployeeService

/-- `getAll` (employeeService.js lines 20-56), as a function of the SDK call's
outcome; returns the employee list together with the `toast.error` messages. -/
def getAll : SDKResult FetchResponse → List EmployeeRecord × List String
  | .thrown => ([], [])
  | .ok r =>
    if !r.success then ([], [r.message])
    else (r.data.getD [], [])

/-- `getById` (employeeService.js lines 58-92).  The response itself may be
absent (`null`): hence `SDKResult (Option GetResponse)`. -/
def getById : SDKResult (Option GetResponse) → Option EmployeeRecord × List String
  | .thrown => (none, [])
  | .ok none => (none, [])
  | .ok (some r) =>
    match r.data with
    | none => (none, [])
    | some d => (some d, [])

/-- `create` (employeeService.js lines 94-148), as a function of the
`createRecord` call's outcome. -/
def create (o : SDKResult MutResponse) : Option EmployeeRecord × List String :=
  match o with
  | .thrown => (none, [])
  | .ok r =>
    if !r.success then (none, [r.message])
    else
      match r.results with
      | some results =>
        ((match results.filter (fun x => x.success) with
          | [] => none
          | first :: _ => first.data),
         (results.filter (fun x => !x.success)).flatMap (fun fr =>
           fr.errors.map (fun err => err.fieldLabel ++ ": " ++ err.message) ++
           (match fr.message with | some m => [m] | none => [])))
      | none => (none, [])

/-- `update` (employeeService.js lines 150-205), as a function of the
`updateRecord` call's outcome (the record id does not affect the result). -/
def update (o : SDKResult MutResponse) : Option EmployeeRecord × List String :=
  match o with
  | .thrown => (none, [])
  | .ok r =>
    if !r.success then (none, [r.message])
    else
      match r.results with
      | some results =>
        ((match results.filter (fun x => x.success) with
          | [] => none
          | first :: _ => first.data),
         (results.filter (fun x => !x.success)).flatMap (fun fr =>
           fr.errors.map (fun err => err.fieldLabel ++ ": " ++ err.message) ++
           (match fr.message with | some m => [m] | none => [])))
      | none => (none, [])

/-- `delete` (employeeService.js lines 207-247). -/
def delete (o : SDKResult MutResponse) : Bool × List String :=
  match o with
  | .thrown => (false, [])
  | .ok r =>
    if !r.success then (false, [r.message])
    else
      match r.results with
      | some results =>
        (decide (0 < (results.filter (fun x => x.success)).length),
         (results.filter (fun x => !x.success)).flatMap (fun fr =>
           match fr.message with | some m => [m] | none => []))
      | none => (false, [])

end EmployeeService

/-- The `formData` state of `EmployeeModal`. -/
structure FormData where
  fullName : String := ""
  email : String := ""
  phone : String := ""
  role : String := ""
  departmentId : String := ""
  hireDate : String := ""
  status : String := "active"
deriving DecidableEq

/-- The initial `useState` value of `formData` (employeeService.js lines
260-268), also the value `handleClose` resets to. -/
def initialFormData : FormData :=
  { fullName := "", email := "", phone := "", role := ""
  , departmentId := "", hireDate := "", status := "active" }

/-- The `errors` state object: a key is present exactly when `validateForm`
recorded a message for that field. -/
structure FormErrors where
  fullName : Option String := none
  email : Option String := none
  phone : Option String := none
  role : Option String := none
  departmentId : Option String := none
  hireDate : Option String := none
deriving DecidableEq

/-- `Object.keys(newErrors).length === 0`. -/
def noErrors (e : FormErrors) : Bool :=
  e.fullName.isNone && e.email.isNone && e.phone.isNone &&
  e.role.isNone && e.departmentId.isNone && e.hireDate.isNone

/-- A character matching the regex class `[^\s@]`. -/
def noSpecial (c : Char) : Bool := !c.isWhitespace && c != '@'

/-- The test of the email regex `^[^\s@]+@[^\s@]+\.[^\s@]+$` (employeeService.js
line 327): the string matches iff it decomposes as `A ++ "@" ++ B ++ "." ++ C`
with `A`, `B`, `C` non-empty runs of `[^\s@]` characters; `i` ranges over the
candidate positions of the `@` and `j` over those of the separating dot. -/
def emailOk (s : String) : Bool :=
  let l := s.data
  (List.range l.length).any fun i =>
    (List.range l.length).any fun j =>
      decide (0 < i) && decide (i + 1 < j) && decide (j + 1 < l.length) &&
      decide (l[i]? = some '@') && decide (l[j]? = some '.') &&
      (l.take i).all noSpecial &&
      ((l.drop (i + 1)).take (j - i - 1)).all noSpecial &&
      (l.drop (j + 1)).all noSpecial

/-- The part of a string after its first `@` (the regex's domain part), as a
character list; empty when the string has no `@`. -/
def domainAfterAt (s : String) : List Char :=
  (s.data.dropWhile (fun c => c != '@')).tail

/-- `if (!formData.fullName.trim()) newErrors.fullName = "Full name is required"`. -/
def checkFullName (fd : FormData) (e : FormErrors) : FormErrors :=
  if jsTrim fd.fullName = "" then { e with fullName := some "Full name is required" } else e

/-- `if (!formData.email.trim()) newErrors.email = "Email is required"`. -/
def checkEmailRequired (fd : FormData) (e : FormErrors) : FormErrors :=
  if jsTrim fd.email = "" then { e with email := some "Email is required" } else e

/-- `if (!formData.phone.trim()) newErrors.phone = "Phone is required"`. -/
def checkPhone (fd : FormData) (e : FormErrors) : FormErrors :=
  if jsTrim fd.phone = "" then { e with phone := some "Phone is required" } else e

/-- `if (!formData.role.trim()) newErrors.role = "Role is required"`. -/
def checkRole (fd : FormData) (e : FormErrors) : FormErrors :=
  if jsTrim fd.role = "" then { e with role := some "Role is required" } else e

/-- `if (!formData.departmentId) newErrors.departmentId = "Department is required"`. -/
def checkDepartmentId (fd : FormData) (e : FormErrors) : FormErrors :=
  if fd.departmentId = "" then { e with departmentId := some "Department is required" } else e

/-- `if (!formData.hireDate) newErrors.hireDate = "Hire date is required"`. -/
def checkHireDate (fd : FormData) (e : FormErrors) : FormErrors :=
  if fd.hireDate = "" then { e with hireDate := some "Hire date is required" } else e

/-- `if (formData.email && !regex.test(formData.email)) newErrors.email = ...`. -/
def checkEmailFormat (fd : FormData) (e : FormErrors) : FormErrors :=
  if fd.email ≠ "" ∧ emailOk fd.email = false then { e with email := some "Please enter a valid email address" } else e

/-- `validateForm` (employeeService.js lines 317-333): starting from the empty
`newErrors` object, apply the seven checks in source order and return the
result together with `Object.keys(newErrors).length === 0`. -/
def validateForm (fd : FormData) : FormErrors × Bool :=
  let newErrors := checkEmailFormat fd (checkHireDate fd (checkDepartmentId fd
    (checkRole fd (checkPhone fd (checkEmailRequired fd (checkFullName fd {}))))))
  (newErrors, noErrors newErrors)

/-- The modal's relevant state: the form draft and the validation errors. -/
structure ModalState where
  formData : FormData
  errors : FormErrors
deriving DecidableEq

/-- Result of a `handleSubmit` run: the state afterwards, whether the service
(create or update) was invoked, and whether `onClose` was called. -/
structure SubmitOutcome where
  state : ModalState
  called : Bool
  closed : Bool
deriving DecidableEq

/-- `handleSubmit` (employeeService.js lines 335-356).  When validation passes
it invokes `employeeService.update` (when `employee` is present) or
`employeeService.create`; both swallow all errors (see the service model), so
the awaited call always completes and `onSuccess`/`onClose` run.  `formData`
itself is never written by `handleSubmit`. -/
def handleSubmit (employee : Option Int) (s : ModalState) : SubmitOutcome :=
  let v := validateForm s.formData
  if v.2 then
    { state := { s with errors := v.1 }, called := true, closed := true }
  else
    { state := { s with errors := v.1 }, called := false, closed := false }

/-- `handleClose` (employeeService.js lines 358-370): reset `formData` to the
initial draft, clear `errors`, call `onClose`. -/
def handleClose (s : ModalState) : ModalState :=
  { formData := initialFormData, errors := {} }

/-! ### Helper lemmas -/

theorem splitSp_ne_nil (l : List Char) : splitSp l ≠ [] := by
  cases l with
  | nil => simp [splitSp]
  | cons c cs =>
    simp only [splitSp]
    cases splitSp cs with
    | nil => simp
    | cons h t => by_cases hc : c = ' ' <;> simp [hc]

theorem splitSp_no_space (l : List Char) (h : ' ' ∉ l) : splitSp l = [l] := by
  induction l with
  | nil => rfl
  | cons c cs ih =>
    have hc : c ≠ ' ' := fun hcc => h (hcc ▸ List.mem_cons_self c cs)
    have ihcs : splitSp cs = [cs] := ih (fun hm => h (List.mem_cons_of_mem c hm))
    simp only [splitSp, ihcs]
    simp [hc]

theorem splitSp_append (a b : List Char) (h : ' ' ∉ a) :
    splitSp (a ++ ' ' :: b) = a :: splitSp b := by
  induction a with
  | nil =>
    simp only [List.nil_append, splitSp]
    cases hb : splitSp b with
    | nil => exact absurd hb (splitSp_ne_nil b)
    | cons hd tl => simp
  | cons c cs ih =>
    have hc : c ≠ ' ' := fun hcc => h (hcc ▸ List.mem_cons_self c cs)
    have ihcs := ih (fun hm => h (List.mem_cons_of_mem c hm))
    simp only [List.cons_append, splitSp, List.append_eq]
    rw [ihcs]
    simp [hc]

theorem joinC_splitSp (l : List Char) : joinC (splitSp l) = l := by
  induction l with
  | nil => rfl
  | cons c cs ih =>
    cases hsp : splitSp cs with
    | nil => exact absurd hsp (splitSp_ne_nil cs)
    | cons h t =>
      rw [hsp] at ih
      simp only [splitSp, hsp]
      by_cases hc : c = ' '
      · subst hc
        simp only [if_pos rfl, joinC]
        simpa using ih
      · rw [if_neg hc]
        cases t with
        | nil => simpa [joinC] using congrArg (c :: ·) ih
        | cons y t2 => simpa [joinC] using congrArg (c :: ·) ih

theorem mk_append (a b : List Char) : (⟨a⟩ : String) ++ (⟨b⟩ : String) = ⟨a ++ b⟩ := rfl

theorem joinSp_map_mk (xs : List (List Char)) :
    joinSp (xs.map (fun l => (⟨l⟩ : String))) = ⟨joinC xs⟩ := by
  induction xs with
  | nil => rfl
  | cons x t ih =>
    cases t with
    | nil => rfl
    | cons y t2 =>
      simp only [List.map_cons, joinSp, joinC] at ih ⊢
      rw [ih, mk_append, mk_append]
      have hsp : " ".data = [' '] := rfl
      refine congrArg (fun l => (⟨l⟩ : String)) ?_
      rw [hsp, List.append_assoc, List.singleton_append]

theorem joinSp_jsSplitSpace (s : String) : joinSp (jsSplitSpace s) = s := by
  rw [jsSplitSpace, joinSp_map_mk, joinC_splitSp]

theorem jsOr_empty_left (b : String) : jsOr "" b = b := by simp [jsOr]

theorem jsOr_empty_right (a : String) : jsOr a "" = a := by
  unfold jsOr
  split <;> simp_all


theorem validateForm_snd (fd : FormData) :
    (validateForm fd).2 = noErrors (validateForm fd).1 := rfl

theorem checkFullName_eq (fd : FormData) (e : FormErrors) :
    checkFullName fd e =
      { e with fullName := if jsTrim fd.fullName = "" then some "Full name is required" else e.fullName } := by
  unfold checkFullName
  split <;> rfl

theorem checkEmailRequired_eq (fd : FormData) (e : FormErrors) :
    checkEmailRequired fd e =
      { e with email := if jsTrim fd.email = "" then some "Email is required" else e.email } := by
  unfold checkEmailRequired
  split <;> rfl

theorem checkPhone_eq (fd : FormData) (e : FormErrors) :
    checkPhone fd e =
      { e with phone := if jsTrim fd.phone = "" then some "Phone is required" else e.phone } := by
  unfold checkPhone
  split <;> rfl

theorem checkRole_eq (fd : FormData) (e : FormErrors) :
    checkRole fd e =
      { e with role := if jsTrim fd.role = "" then some "Role is required" else e.role } := by
  unfold checkRole
  split <;> rfl

theorem checkDepartmentId_eq (fd : FormData) (e : FormErrors) :
    checkDepartmentId fd e =
      { e with departmentId := if fd.departmentId = "" then some "Department is required" else e.departmentId } := by
  unfold checkDepartmentId
  split <;> rfl

theorem checkHireDate_eq (fd : FormData) (e : FormErrors) :
    checkHireDate fd e =
      { e with hireDate := if fd.hireDate = "" then some "Hire date is required" else e.hireDate } := by
  unfold checkHireDate
  split <;> rfl

theorem checkEmailFormat_eq (fd : FormData) (e : FormErrors) :
    checkEmailFormat fd e =
      { e with email := if fd.email ≠ "" ∧ emailOk fd.email = false
                        then some "Please enter a valid email address" else e.email } := by
  unfold checkEmailFormat
  split <;> rfl

theorem validateForm_fst (fd : FormData) :
    (validateForm fd).1 =
      { fullName := if jsTrim fd.fullName = "" then some "Full name is required" else none
      , email := if fd.email ≠ "" ∧ emailOk fd.email = false
                 then some "Please enter a valid email address"
                 else if jsTrim fd.email = "" then some "Email is required" else none
      , phone := if jsTrim fd.phone = "" then some "Phone is required" else none
      , role := if jsTrim fd.role = "" then some "Role is required" else none
      , departmentId := if fd.departmentId = "" then some "Department is required" else none
      , hireDate := if fd.hireDate = "" then some "Hire date is required" else none } := by
  show checkEmailFormat fd (checkHireDate fd (checkDepartmentId fd
    (checkRole fd (checkPhone fd (checkEmailRequired fd (checkFullName fd {})))))) = _
  rw [checkFullName_eq, checkEmailRequired_eq, checkPhone_eq, checkRole_eq,
    checkDepartmentId_eq, checkHireDate_eq, checkEmailFormat_eq]

theorem noSpecial_not_at (c : Char) (h : noSpecial c = true) : c ≠ '@' := by
  simp [noSpecial] at h
  exact h.2

theorem noSpecial_not_ws (c : Char) (h : noSpecial c = true) : c.isWhitespace = false := by
  simp [noSpecial] at h
  exact h.1

theorem dropWhile_all_append (p : Char → Bool) (A R : List Char) (x : Char)
    (hA : ∀ c ∈ A, p c = true) (hx : p x = false) :
    (A ++ x :: R).dropWhile p = x :: R := by
  induction A with
  | nil => simp [List.dropWhile_cons, hx]
  | cons a A ih =>
    have ha : p a = true := hA a (List.mem_cons_self a A)
    simp only [List.cons_append, List.dropWhile_cons, ha, if_true]
    exact ih (fun c hc => hA c (List.mem_cons_of_mem a hc))

theorem count_at_zero_of_all (L : List Char) (h : ∀ c ∈ L, noSpecial c = true) :
    L.count '@' = 0 :=
  List.count_eq_zero.mpr (fun hmem => noSpecial_not_at '@' (h '@' hmem) rfl)

/-- If the email regex accepts `s`, then `s` contains exactly one `@`, no
whitespace, and a `.` somewhere after the `@`. -/
theorem emailOk_sound (s : String) (h : emailOk s = true) :
    s.data.count '@' = 1 ∧ (∀ c ∈ s.data, c.isWhitespace = false) ∧
    '.' ∈ domainAfterAt s := by
  simp only [emailOk, List.any_eq_true, List.mem_range, Bool.and_eq_true,
    decide_eq_true_eq, List.all_eq_true] at h
  obtain ⟨i, hi, j, hj, ⟨⟨⟨⟨⟨⟨h0i, hij⟩, hjl⟩, hat⟩, hdot⟩, hA⟩, hB⟩, hC⟩ := h
  rw [List.getElem?_eq_getElem hi, Option.some_inj] at hat
  rw [List.getElem?_eq_getElem hj, Option.some_inj] at hdot
  obtain ⟨D, hD⟩ : ∃ D, s.data.drop (i + 1) = D := ⟨_, rfl⟩
  have h2 : s.data.drop i = '@' :: D := by
    rw [List.drop_eq_getElem_cons hi, hat, hD]
  have h4 : D.drop (j - i - 1) = s.data.drop j := by
    rw [← hD, List.drop_drop]
    congr 1
    omega
  have h5 : s.data.drop j = '.' :: s.data.drop (j + 1) := by
    rw [List.drop_eq_getElem_cons hj, hdot]
  have hdecomp : s.data =
      s.data.take i ++ '@' :: (D.take (j - i - 1) ++ '.' :: s.data.drop (j + 1)) := by
    calc s.data = s.data.take i ++ s.data.drop i := (List.take_append_drop i s.data).symm
      _ = s.data.take i ++ ('@' :: D) := by rw [h2]
      _ = s.data.take i ++ ('@' :: (D.take (j - i - 1) ++ D.drop (j - i - 1))) := by
          rw [List.take_append_drop]
      _ = s.data.take i ++ ('@' :: (D.take (j - i - 1) ++ ('.' :: s.data.drop (j + 1)))) := by
          rw [h4, h5]
  rw [hD] at hB
  refine ⟨?_, ?_, ?_⟩
  · rw [hdecomp]
    have cA : (s.data.take i).count '@' = 0 := count_at_zero_of_all _ hA
    have cB : (D.take (j - i - 1)).count '@' = 0 := count_at_zero_of_all _ hB
    have cC : (s.data.drop (j + 1)).count '@' = 0 := count_at_zero_of_all _ hC
    simp [List.count_append, List.count_cons, cA, cB, cC]
  · intro c hc
    rw [hdecomp] at hc
    simp only [List.mem_append, List.mem_cons] at hc
    rcases hc with hc | hc | hc | hc | hc
    · exact noSpecial_not_ws c (hA c hc)
    · rw [hc]; rfl
    · exact noSpecial_not_ws c (hB c hc)
    · rw [hc]; rfl
    · exact noSpecial_not_ws c (hC c hc)
  · have hdw : s.data.dropWhile (fun c => c != '@') =
        '@' :: (D.take (j - i - 1) ++ '.' :: s.data.drop (j + 1)) := by
      conv_lhs => rw [hdecomp]
      refine dropWhile_all_append _ _ _ _ ?_ (by simp)
      intro c hc
      simpa using noSpecial_not_at c (hA c hc)
    rw [domainAfterAt, hdw]
    simp

/-! ### Claim theorems -/

/-- C1 counterexample: the claim is false for `getById`.  On a response whose
success flag is `false` but which carries record data, `getById` returns the
record, not its `null` sentinel, because it never inspects the flag. -/
theorem C1_counterexample :
    (EmployeeService.getById (.ok (some { success := false, data := some { Name := "X" } }))).1
      = some { Name := "X" } ∧
    (some ({ Name := "X" } : EmployeeRecord)) ≠ none := by
  constructor
  · rfl
  · simp

/-- C1 (amended): on a thrown SDK error every operation returns its degraded
sentinel (empty list / null / false) and, being a total function of the
outcome, never propagates an exception; on a response with success flag
`false`, `getAll`, `create`, `update` and `delete` return their sentinels,
while `getById` never inspects the flag and returns null exactly when the
response or its data field is absent. -/
theorem C1_amended (rf : FetchResponse) (rc ru rd : MutResponse) (rg : GetResponse)
    (hf : rf.success = false) (hc : rc.success = false) (hu : ru.success = false)
    (hd : rd.success = false) (hg : rg.data = none) :
    (EmployeeService.getAll .thrown).1 = [] ∧
    (EmployeeService.getAll (.ok rf)).1 = [] ∧
    (EmployeeService.getById .thrown).1 = none ∧
    (EmployeeService.getById (.ok none)).1 = none ∧
    (EmployeeService.getById (.ok (some rg))).1 = none ∧
    (EmployeeService.create .thrown).1 = none ∧
    (EmployeeService.create (.ok rc)).1 = none ∧
    (EmployeeService.update .thrown).1 = none ∧
    (EmployeeService.update (.ok ru)).1 = none ∧
    (EmployeeService.delete .thrown).1 = false ∧
    (EmployeeService.delete (.ok rd)).1 = false := by
  refine ⟨rfl, ?_, rfl, rfl, ?_, rfl, ?_, rfl, ?_, rfl, ?_⟩
  · simp [EmployeeService.getAll, hf]
  · simp [EmployeeService.getById, hg]
  · simp [EmployeeService.create, hc]
  · simp [EmployeeService.update, hu]
  · simp [EmployeeService.delete, hd]

/-- Witness for C1 (amended) at concrete failed responses. -/
theorem C1_amended_witness :
    (EmployeeService.getAll (.ok { success := false, message := "m" })).1 = [] ∧
    (EmployeeService.getById (.ok (some { success := false }))).1 = none ∧
    (EmployeeService.create (.ok { success := false, message := "m" })).1 = none ∧
    (EmployeeService.update (.ok { success := false, message := "m" })).1 = none ∧
    (EmployeeService.delete (.ok { success := false, message := "m" })).1 = false := by
  have h := C1_amended { success := false, message := "m" } { success := false, message := "m" }
    { success := false, message := "m" } { success := false, message := "m" }
    { success := false } rfl rfl rfl rfl rfl
  exact ⟨h.2.1, h.2.2.2.2.1, h.2.2.2.2.2.2.1, h.2.2.2.2.2.2.2.2.1, h.2.2.2.2.2.2.2.2.2.2⟩

/-- C8: `getById` never emits a toast, returns `response.data` for every
present response regardless of the success flag, and returns null when the
response (or, by the second conjunct with `r.data = none`, its data field)
is absent. -/
theorem C8_getById_ignores_success :
    (∀ o : SDKResult (Option GetResponse), (EmployeeService.getById o).2 = []) ∧
    (∀ r : GetResponse, (EmployeeService.getById (.ok (some r))).1 = r.data) ∧
    (EmployeeService.getById .thrown).1 = none ∧
    (EmployeeService.getById (.ok none)).1 = none := by
  refine ⟨?_, ?_, rfl, rfl⟩
  · intro o
    rcases o with _ | r
    · rfl
    · rcases r with _ | r
      · rfl
      · rcases hr : r.data with _ | d <;> simp [EmployeeService.getById, hr]
  · intro r
    rcases hr : r.data with _ | d <;> simp [EmployeeService.getById, hr]

/-- C2: on an overall-success response with a results array, `create` and
`update` return exactly the data of the first success-true entry. -/
theorem C2_create_update_passthrough (msg : String) (l : List RecResult) (r : RecResult)
    (d : EmployeeRecord)
    (hfirst : (l.filter (fun x => x.success)).head? = some r) (hd : r.data = some d) :
    (EmployeeService.create (.ok { success := true, message := msg, results := some l })).1 = some d ∧
    (EmployeeService.update (.ok { success := true, message := msg, results := some l })).1 = some d := by
  obtain ⟨t, ht⟩ : ∃ t, l.filter (fun x => x.success) = r :: t := by
    cases hl : l.filter (fun x => x.success) with
    | nil => rw [hl] at hfirst; simp at hfirst
    | cons a t =>
      rw [hl] at hfirst
      simp at hfirst
      exact ⟨t, by rw [hfirst]⟩
  constructor <;> simp [EmployeeService.create, EmployeeService.update, ht, hd]

/-- Witness for C2 at a concrete one-element results array. -/
theorem C2_witness :
    (EmployeeService.create (.ok { success := true, message := "", results := some [{ success := true, data := some { Name := "X" } }] })).1 = some { Name := "X" } ∧
    (EmployeeService.update (.ok { success := true, message := "", results := some [{ success := true, data := some { Name := "X" } }] })).1 = some { Name := "X" } :=
  C2_create_update_passthrough "" [{ success := true, data := some { Name := "X" } }]
    { success := true, data := some { Name := "X" } } { Name := "X" } rfl rfl

/-- C3: when explicit first/last names are absent and `fullName` starts with a
space-free word `w1` followed by a space and the remainder `rest` (e.g.
"Jane Doe" with `w1 = "Jane"`, `rest = "Doe"`), the record sent to the store
by `create` and by `update` has `first_name_c = w1` (the first token),
`last_name_c = rest` (the joined remaining tokens, since joining the split of
`rest` with spaces is the identity), and `Name` equal to the `fullName`. -/
theorem C3_fullName_split (e : EmployeeData) (uid : Int) (w1 rest : String)
    (h1 : e.first_name_c = "") (h2 : e.last_name_c = "")
    (hw1 : w1 ≠ "") (hsp : ' ' ∉ w1.data)
    (hf : e.fullName = w1 ++ " " ++ rest) :
    (createRecordPayload e).first_name_c = w1 ∧
    (createRecordPayload e).last_name_c = rest ∧
    (createRecordPayload e).Name = e.fullName ∧
    (updateRecordPayload uid e).first_name_c = w1 ∧
    (updateRecordPayload uid e).last_name_c = rest ∧
    (updateRecordPayload uid e).Name = e.fullName := by
  have hspdata : " ".data = [' '] := rfl
  have hdata : (w1 ++ " " ++ rest).data = w1.data ++ ' ' :: rest.data := by
    rw [String.data_append, String.data_append, hspdata, List.append_assoc,
      List.singleton_append]
  have hsplit : jsSplitSpace e.fullName = w1 :: jsSplitSpace rest := by
    rw [hf, jsSplitSpace, hdata, splitSp_append _ _ hsp, List.map_cons]
    rfl
  have hfirst : (jsSplitSpace e.fullName).headD "" = w1 := by rw [hsplit]; rfl
  have htail : joinSp (jsSplitSpace e.fullName).tail = rest := by
    rw [hsplit]
    exact joinSp_jsSplitSpace rest
  have hfne : e.fullName ≠ "" := by
    rw [hf]
    intro hcontra
    have hcd := congrArg String.data hcontra
    rw [hdata] at hcd
    simp at hcd
  refine ⟨?_, ?_, ?_, ?_, ?_, ?_⟩
  · show jsOr (jsOr e.first_name_c ((jsSplitSpace e.fullName).headD "")) "" = w1
    rw [h1, jsOr_empty_left, hfirst, jsOr_empty_right]
  · show jsOr (jsOr e.last_name_c (joinSp (jsSplitSpace e.fullName).tail)) "" = rest
    rw [h2, jsOr_empty_left, htail, jsOr_empty_right]
  · show jsOr e.fullName (jsTrim (jsOr e.first_name_c "" ++ " " ++ jsOr e.last_name_c "")) = e.fullName
    simp [jsOr, hfne]
  · show jsOr (jsOr e.first_name_c ((jsSplitSpace e.fullName).headD "")) "" = w1
    rw [h1, jsOr_empty_left, hfirst, jsOr_empty_right]
  · show jsOr (jsOr e.last_name_c (joinSp (jsSplitSpace e.fullName).tail)) "" = rest
    rw [h2, jsOr_empty_left, htail, jsOr_empty_right]
  · show jsOr e.fullName (jsTrim (jsOr e.first_name_c "" ++ " " ++ jsOr e.last_name_c "")) = e.fullName
    simp [jsOr, hfne]

/-- Witness for C3 at fullName "Jane Doe". -/
theorem C3_witness :
    (createRecordPayload { fullName := "Jane Doe" }).first_name_c = "Jane" ∧
    (createRecordPayload { fullName := "Jane Doe" }).last_name_c = "Doe" ∧
    (createRecordPayload { fullName := "Jane Doe" }).Name = "Jane Doe" ∧
    (updateRecordPayload 1 { fullName := "Jane Doe" }).first_name_c = "Jane" := by
  have h := C3_fullName_split { fullName := "Jane Doe" } 1 "Jane" "Doe" rfl rfl
    (by decide) (by decide) rfl
  exact ⟨h.1, h.2.1, h.2.2.1, h.2.2.2.1⟩

/-- C9: when explicit first/last names are absent and `fullName` is a single
space-free word, the record sent to the store by `create` and by `update` has
`first_name_c` equal to that word, `last_name_c` equal to the empty string,
and `Name` equal to that word. -/
theorem C9_single_word (e : EmployeeData) (uid : Int) (w : String)
    (h1 : e.first_name_c = "") (h2 : e.last_name_c = "")
    (hw : w ≠ "") (hsp : ' ' ∉ w.data) (hf : e.fullName = w) :
    (createRecordPayload e).first_name_c = w ∧
    (createRecordPayload e).last_name_c = "" ∧
    (createRecordPayload e).Name = w ∧
    (updateRecordPayload uid e).first_name_c = w ∧
    (updateRecordPayload uid e).last_name_c = "" ∧
    (updateRecordPayload uid e).Name = w := by
  have hsplit : jsSplitSpace e.fullName = [w] := by
    rw [hf, jsSplitSpace, splitSp_no_space _ hsp]
    rfl
  have hfirst : (jsSplitSpace e.fullName).headD "" = w := by rw [hsplit]; rfl
  have htail : joinSp (jsSplitSpace e.fullName).tail = "" := by rw [hsplit]; rfl
  have hfne : e.fullName ≠ "" := by rw [hf]; exact hw
  refine ⟨?_, ?_, ?_, ?_, ?_, ?_⟩
  · show jsOr (jsOr e.first_name_c ((jsSplitSpace e.fullName).headD "")) "" = w
    rw [h1, jsOr_empty_left, hfirst, jsOr_empty_right]
  · show jsOr (jsOr e.last_name_c (joinSp (jsSplitSpace e.fullName).tail)) "" = ""
    rw [h2, jsOr_empty_left, htail, jsOr_empty_right]
  · show jsOr e.fullName (jsTrim (jsOr e.first_name_c "" ++ " " ++ jsOr e.last_name_c "")) = w
    simp [jsOr, hf, hw]
  · show jsOr (jsOr e.first_name_c ((jsSplitSpace e.fullName).headD "")) "" = w
    rw [h1, jsOr_empty_left, hfirst, jsOr_empty_right]
  · show jsOr (jsOr e.last_name_c (joinSp (jsSplitSpace e.fullName).tail)) "" = ""
    rw [h2, jsOr_empty_left, htail, jsOr_empty_right]
  · show jsOr e.fullName (jsTrim (jsOr e.first_name_c "" ++ " " ++ jsOr e.last_name_c "")) = w
    simp [jsOr, hf, hw]

/-- Witness for C9 at fullName "Jane". -/
theorem C9_witness :
    (createRecordPayload { fullName := "Jane" }).first_name_c = "Jane" ∧
    (createRecordPayload { fullName := "Jane" }).last_name_c = "" ∧
    (createRecordPayload { fullName := "Jane" }).Name = "Jane" ∧
    (updateRecordPayload 1 { fullName := "Jane" }).last_name_c = "" := by
  have h := C9_single_word { fullName := "Jane" } 1 "Jane" rfl rfl (by decide) (by decide) rfl
  exact ⟨h.1, h.2.1, h.2.2.1, h.2.2.2.2.1⟩

/-- C5 counterexample: for the input `department_id_c = "abc"`, the department
field sent to the store by `create` and `update` is `parseInt("abc") = NaN`
(modelled as `none`), not an integer. -/
theorem C5_counterexample :
    ((createRecordPayload { department_id_c := JSV.str "abc" }).department_id_c).isSome = false ∧
    ((updateRecordPayload 1 { department_id_c := JSV.str "abc" }).department_id_c).isSome = false := by
  constructor <;> rfl

/-- C5 (amended): the department field sent to the store is
`parseInt(department_id_c || departmentId || 0)` (radix-less `parseInt`, so a
`0x`-prefixed string parses as hexadecimal): when both inputs are absent it is
the integer 0, and when the first truthy input is a string on which `parseInt`
succeeds the field is exactly that integer; but when `parseInt` fails (e.g.
"abc" or "0xzz") the field is `NaN` rather than an integer. -/
theorem C5_department_id_amended (e : EmployeeData) (uid : Int) :
    (e.department_id_c = JSV.undef → e.departmentId = JSV.undef →
      (createRecordPayload e).department_id_c = some 0 ∧
      (updateRecordPayload uid e).department_id_c = some 0) ∧
    (∀ s k, e.department_id_c = JSV.str s → parseIntStr s = some k →
      (createRecordPayload e).department_id_c = some k ∧
      (updateRecordPayload uid e).department_id_c = some k) := by
  constructor
  · intro hu1 hu2
    constructor
    · show jsParseInt (jsOrV (jsOrV e.department_id_c e.departmentId) (JSV.num 0)) = some 0
      rw [hu1, hu2]
      rfl
    · show jsParseInt (jsOrV (jsOrV e.department_id_c e.departmentId) (JSV.num 0)) = some 0
      rw [hu1, hu2]
      rfl
  · intro s k hs hk
    have hsne : s ≠ "" := by
      intro hcontra
      rw [hcontra] at hk
      have hnone : parseIntStr "" = none := rfl
      rw [hnone] at hk
      exact Option.noConfusion hk
    have ht : (JSV.str s).truthy = true := by simp [JSV.truthy, hsne]
    have hsel : jsOrV (jsOrV e.department_id_c e.departmentId) (JSV.num 0) = JSV.str s := by
      rw [hs]
      simp [jsOrV, ht]
    constructor
    · show jsParseInt (jsOrV (jsOrV e.department_id_c e.departmentId) (JSV.num 0)) = some k
      rw [hsel]
      simpa [jsParseInt, jsvToString] using hk
    · show jsParseInt (jsOrV (jsOrV e.department_id_c e.departmentId) (JSV.num 0)) = some k
      rw [hsel]
      simpa [jsParseInt, jsvToString] using hk

/-- Witness for C5 (amended): absent inputs give 0; a decimal string is
parsed as decimal and a `0x`-prefixed string as hexadecimal. -/
theorem C5_witness :
    (createRecordPayload {}).department_id_c = some 0 ∧
    (createRecordPayload { department_id_c := JSV.str "7" }).department_id_c = some 7 ∧
    (createRecordPayload { department_id_c := JSV.str "0x10" }).department_id_c = some 16 :=
  ⟨((C5_department_id_amended {} 1).1 rfl rfl).1,
   ((C5_department_id_amended { department_id_c := JSV.str "7" } 1).2 "7" 7 rfl rfl).1,
   ((C5_department_id_amended { department_id_c := JSV.str "0x10" } 1).2 "0x10" 16 rfl rfl).1⟩

/-- C4: each empty or whitespace-only required field (full name, email, phone,
role; department and hire date when empty) makes `validateForm` record an
error for that field and return false; a false validation makes `handleSubmit`
skip the service call; and when all six fields are present and the email is
well-formed, `validateForm` returns true. -/
theorem C4_required_fields (fd : FormData) :
    (jsTrim fd.fullName = "" →
      (validateForm fd).1.fullName = some "Full name is required" ∧ (validateForm fd).2 = false) ∧
    (jsTrim fd.email = "" →
      (validateForm fd).1.email.isSome = true ∧ (validateForm fd).2 = false) ∧
    (jsTrim fd.phone = "" →
      (validateForm fd).1.phone = some "Phone is required" ∧ (validateForm fd).2 = false) ∧
    (jsTrim fd.role = "" →
      (validateForm fd).1.role = some "Role is required" ∧ (validateForm fd).2 = false) ∧
    (fd.departmentId = "" →
      (validateForm fd).1.departmentId = some "Department is required" ∧ (validateForm fd).2 = false) ∧
    (fd.hireDate = "" →
      (validateForm fd).1.hireDate = some "Hire date is required" ∧ (validateForm fd).2 = false) ∧
    ((validateForm fd).2 = false →
      ∀ emp errs, (handleSubmit emp { formData := fd, errors := errs }).called = false) ∧
    (jsTrim fd.fullName ≠ "" → jsTrim fd.email ≠ "" → jsTrim fd.phone ≠ "" →
      jsTrim fd.role ≠ "" → fd.departmentId ≠ "" → fd.hireDate ≠ "" →
      emailOk fd.email = true → (validateForm fd).2 = true) := by
  refine ⟨?_, ?_, ?_, ?_, ?_, ?_, ?_, ?_⟩
  · intro h
    rw [validateForm_snd, validateForm_fst]
    constructor
    · simp [h]
    · simp [noErrors, h]
  · intro h
    rw [validateForm_snd, validateForm_fst]
    rcases Decidable.em (fd.email ≠ "" ∧ emailOk fd.email = false) with hc | hc
    · constructor
      · simp [hc]
      · simp [noErrors, hc]
    · constructor
      · simp [hc, h]
      · simp [noErrors, hc, h]
  · intro h
    rw [validateForm_snd, validateForm_fst]
    constructor
    · simp [h]
    · simp [noErrors, h]
  · intro h
    rw [validateForm_snd, validateForm_fst]
    constructor
    · simp [h]
    · simp [noErrors, h]
  · intro h
    rw [validateForm_snd, validateForm_fst]
    constructor
    · simp [h]
    · simp [noErrors, h]
  · intro h
    rw [validateForm_snd, validateForm_fst]
    constructor
    · simp [h]
    · simp [noErrors, h]
  · intro h emp errs
    simp [handleSubmit, h]
  · intro h1 h2 h3 h4 h5 h6 h7
    have hne : ¬(fd.email ≠ "" ∧ emailOk fd.email = false) := by
      rintro ⟨hx, hy⟩
      rw [h7] at hy
      exact Bool.noConfusion hy
    rw [validateForm_snd, validateForm_fst]
    simp [noErrors, h1, h2, h3, h4, h5, h6, hne]

/-- Witness for C4: the all-empty form fails on every field and blocks the
submit; a fully filled form with a well-formed email validates. -/
theorem C4_witness :
    (validateForm ({} : FormData)).1.fullName = some "Full name is required" ∧
    (validateForm ({} : FormData)).2 = false ∧
    (handleSubmit none { formData := {}, errors := {} }).called = false ∧
    (validateForm { fullName := "Jane Doe", email := "jane@ex.com", phone := "1", role := "Dev", departmentId := "1", hireDate := "2024-01-01" }).2 = true := by
  have hbad := C4_required_fields {}
  have hgood := C4_required_fields { fullName := "Jane Doe", email := "jane@ex.com", phone := "1", role := "Dev", departmentId := "1", hireDate := "2024-01-01" }
  exact ⟨(hbad.1 rfl).1, (hbad.1 rfl).2,
    hbad.2.2.2.2.2.2.1 (hbad.1 rfl).2 none {},
    hgood.2.2.2.2.2.2.2 (by decide) (by decide) (by decide) (by decide)
      (by decide) (by decide) (by decide)⟩

/-- C6: a non-empty email containing no "@" fails the email regex, so
`validateForm` records the email-format error and returns false. -/
theorem C6_email_requires_at (fd : FormData) (hne : fd.email ≠ "")
    (hat : '@' ∉ fd.email.data) :
    (validateForm fd).1.email = some "Please enter a valid email address" ∧
    (validateForm fd).2 = false := by
  have hok : emailOk fd.email = false := by
    cases h : emailOk fd.email
    · rfl
    · obtain ⟨hcount, -, -⟩ := emailOk_sound _ h
      have h0 : fd.email.data.count '@' = 0 := List.count_eq_zero.mpr hat
      rw [h0] at hcount
      exact absurd hcount (by decide)
  have hcond : fd.email ≠ "" ∧ emailOk fd.email = false := ⟨hne, hok⟩
  rw [validateForm_snd, validateForm_fst]
  constructor
  · simp [hcond]
  · simp [noErrors, hcond]

/-- Witness for C6 at the email "bad". -/
theorem C6_witness :
    (validateForm { email := "bad" }).1.email = some "Please enter a valid email address" ∧
    (validateForm { email := "bad" }).2 = false :=
  C6_email_requires_at { email := "bad" } (by decide) (by decide)

/-- C10: the email check is strictly stronger than "@"-presence: any non-empty
email whose part after the first "@" contains no ".", or containing
whitespace, or containing two or more "@", fails the regex, so `validateForm`
records the email-format error and returns false. -/
theorem C10_email_stronger (fd : FormData) (hne : fd.email ≠ "")
    (hbad : '.' ∉ domainAfterAt fd.email ∨
      (∃ c ∈ fd.email.data, c.isWhitespace = true) ∨
      2 ≤ fd.email.data.count '@') :
    (validateForm fd).1.email = some "Please enter a valid email address" ∧
    (validateForm fd).2 = false := by
  have hok : emailOk fd.email = false := by
    cases h : emailOk fd.email
    · rfl
    · obtain ⟨hcount, hws, hdot⟩ := emailOk_sound _ h
      rcases hbad with hb | hb | hb
      · exact absurd hdot hb
      · obtain ⟨c, hc, hcw⟩ := hb
        rw [hws c hc] at hcw
        exact Bool.noConfusion hcw
      · rw [hcount] at hb
        exact absurd hb (by decide)
  have hcond : fd.email ≠ "" ∧ emailOk fd.email = false := ⟨hne, hok⟩
  rw [validateForm_snd, validateForm_fst]
  constructor
  · simp [hcond]
  · simp [noErrors, hcond]

/-- Witness for C10 at the email "a@b" (no dot after the "@"). -/
theorem C10_witness :
    (validateForm { email := "a@b" }).1.email = some "Please enter a valid email address" ∧
    (validateForm { email := "a@b" }).2 = false :=
  C10_email_stronger { email := "a@b" } (by decide) (Or.inl (by decide))

/-- C7 counterexample: a `handleSubmit` on a valid draft invokes the service
(which always completes) and closes the modal, but the form state afterwards
still holds the submitted draft — it does not equal the initial empty draft,
because `handleSubmit` calls the `onClose` prop directly and never resets
`formData` (only `handleClose` does). -/
theorem C7_counterexample :
    (handleSubmit none { formData := { fullName := "Jane Doe", email := "jane@ex.com", phone := "1", role := "Dev", departmentId := "1", hireDate := "2024-01-01" }, errors := {} }).called = true ∧
    (handleSubmit none { formData := { fullName := "Jane Doe", email := "jane@ex.com", phone := "1", role := "Dev", departmentId := "1", hireDate := "2024-01-01" }, errors := {} }).state.formData ≠ initialFormData := by
  constructor
  · decide
  · decide

/-- C7 (amended): the transient draft is discarded by `handleClose` (the form
state is reset to the initial empty draft and the errors are cleared), but a
successful `handleSubmit` — one whose validation passes, so the service call
is made and completes — closes the modal while leaving the form state equal
to the submitted draft, not the initial one. -/
theorem C7_amended (s : ModalState) (emp : Option Int)
    (hv : (validateForm s.formData).2 = true) :
    handleClose s = { formData := initialFormData, errors := {} } ∧
    (handleSubmit emp s).called = true ∧
    (handleSubmit emp s).closed = true ∧
    (handleSubmit emp s).state.formData = s.formData := by
  refine ⟨rfl, ?_, ?_, ?_⟩ <;> simp [handleSubmit, hv]

/-- Witness for C7 (amended) on a concrete valid draft. -/
theorem C7_witness :
    handleClose { formData := { fullName := "Jane Doe", email := "jane@ex.com", phone := "1", role := "Dev", departmentId := "1", hireDate := "2024-01-01" }, errors := {} } = { formData := initialFormData, errors := {} } ∧
    (handleSubmit none { formData := { fullName := "Jane Doe", email := "jane@ex.com", phone := "1", role := "Dev", departmentId := "1", hireDate := "2024-01-01" }, errors := {} }).state.formData = { fullName := "Jane Doe", email := "jane@ex.com", phone := "1", role := "Dev", departmentId := "1", hireDate := "2024-01-01" } := by
  have h := C7_amended { formData := { fullName := "Jane Doe", email := "jane@ex.com", phone := "1", role := "Dev", departmentId := "1", hireDate := "2024-01-01" }, errors := {} } none (by decide)
  exact ⟨h.1, h.2.2.2⟩
